import Mathlib

/-!
Verification development for the COREP reporting assistant core
(src/models.py, src/validation.py, src/retrieval.py).

Python floats are modelled by exact rationals (`ℚ`); the float square
root used by the retrieval engine's cosine similarity is modelled by
`Rat.sqrt` (an approximation, as floating square root is).  Python
dicts are modelled by functions `String → Option ℚ` with last-insert-wins
update, which is exactly dict assignment semantics.  Python string
formatting of numbers inside messages is modelled by `toString` on `ℚ`.
-/

/-! ## models.py -/

/-- Model of the `Confidence` enum from models.py. -/
inductive Confidence where
  | high
  | medium
  | low
deriving DecidableEq

/-- Model of `PopulatedField` from models.py: a single populated template field. -/
structure PopulatedField where
  field_id : String
  field_name : String
  value : ℚ
  reasoning : String
  citations : List String
  confidence : Confidence
deriving DecidableEq

/-- Model of `ValidationResult` from models.py. -/
structure ValidationResult where
  rule_id : String
  description : String
  passed : Bool
  expected : Option ℚ
  actual : Option ℚ
  message : String
deriving DecidableEq

/-! ## validation.py

`_field_map` builds a Python dict; we model the dict as a function
`String → Option ℚ` together with an update operation. -/

/-- The field-map dict type: total lookup returning `none` for absent keys. -/
def FieldMap : Type := String → Option ℚ

/-- The empty dict. -/
def mapEmpty : FieldMap := fun _ => none

/-- Dict assignment `m[k] = v`: later assignments win. -/
def mapInsert (m : FieldMap) (k : String) (v : ℚ) : FieldMap :=
  fun x => if x = k then some v else m x

/-- Model of `f.field_id.split("_")[0]`: the text before the first underscore
(the whole string when it has no underscore). -/
def rowOf (fid : String) : String :=
  String.mk (fid.data.takeWhile (fun c => c != '_'))

/-- Model of `_field_map` from validation.py: store both the full field_id and the
row part, iterating over the fields in order. -/
def _field_map (fields : List PopulatedField) : FieldMap :=
  fields.foldl
    (fun m f => mapInsert (mapInsert m f.field_id f.value) (rowOf f.field_id) f.value)
    mapEmpty

/-- Model of `_get` from validation.py:
`m.get(key, m.get(key + "_c0010", default))`. -/
def _get (m : FieldMap) (key : String) (d : ℚ) : ℚ :=
  match m key with
  | some v => v
  | none =>
    match m (key ++ "_c0010") with
    | some v => v
    | none => d

/-- Rule V001 from validation.py: Own Funds = Tier 1 + Tier 2. -/
def _v001_own_funds (m : FieldMap) : ValidationResult :=
  let r0010 := _get m ("r0010") 0
  let r0020 := _get m ("r0020") 0
  let r0500 := _get m ("r0500") 0
  let expected := r0020 + r0500
  let passed := decide (|r0010 - expected| < (1 / 2))
  { rule_id := "V001"
    description := "Own Funds = Tier 1 + Tier 2"
    passed := passed
    expected := some expected
    actual := some r0010
    message := if passed then "" else
      "r0010 (" ++ toString r0010 ++ ") != r0020 (" ++ toString r0020 ++
        ") + r0500 (" ++ toString r0500 ++ ") = " ++ toString expected }

/-- Rule V002 from validation.py: Tier 1 = CET1 + AT1. -/
def _v002_tier1 (m : FieldMap) : ValidationResult :=
  let r0020 := _get m ("r0020") 0
  let r0030 := _get m ("r0030") 0
  let r0300 := _get m ("r0300") 0
  let expected := r0030 + r0300
  let passed := decide (|r0020 - expected| < (1 / 2))
  { rule_id := "V002"
    description := "Tier 1 = CET1 + AT1"
    passed := passed
    expected := some expected
    actual := some r0020
    message := if passed then "" else
      "r0020 (" ++ toString r0020 ++ ") != r0030 (" ++ toString r0030 ++
        ") + r0300 (" ++ toString r0300 ++ ") = " ++ toString expected }

/-- Rule V003 from validation.py: CET1 breakdown. -/
def _v003_cet1 (m : FieldMap) : ValidationResult :=
  let r0030 := _get m ("r0030") 0
  let r0040 := _get m ("r0040") 0
  let r0100 := _get m ("r0100") 0
  let r0110 := _get m ("r0110") 0
  let r0130 := _get m ("r0130") 0
  let r0200 := _get m ("r0200") 0
  let r0210 := _get m ("r0210") 0
  let r0220 := _get m ("r0220") 0
  let expected := r0040 + r0100 + r0110 + r0130 - r0200 - r0210 - r0220
  let passed := decide (|r0030 - expected| < (1 / 2))
  { rule_id := "V003"
    description := "CET1 = Instruments + RE + AOCI + Reserves - Goodwill - Intangibles - DTA"
    passed := passed
    expected := some expected
    actual := some r0030
    message := if passed then "" else
      "r0030 (" ++ toString r0030 ++ ") != calculated (" ++ toString expected ++ ")" }

/-- Rule V004 from validation.py: CET1 instruments = sum of types. -/
def _v004_instruments_breakdown (m : FieldMap) : ValidationResult :=
  let r0040 := _get m ("r0040") 0
  let r0050 := _get m ("r0050") 0
  let r0060 := _get m ("r0060") 0
  let r0070 := _get m ("r0070") 0
  let expected := r0050 + r0060 + r0070
  let passed := decide (|r0040 - expected| < (1 / 2))
  { rule_id := "V004"
    description := "CET1 instruments = type 1 + type 2 + type 3"
    passed := passed
    expected := some expected
    actual := some r0040
    message := if passed then "" else
      "r0040 (" ++ toString r0040 ++ ") != r0050+r0060+r0070 (" ++ toString expected ++ ")" }

/-- Rule V005 from validation.py: Own Funds must be non-negative. -/
def _v005_own_funds_positive (m : FieldMap) : ValidationResult :=
  let r0010 := _get m ("r0010") 0
  let passed := decide (r0010 ≥ 0)
  { rule_id := "V005"
    description := "Own Funds must be non-negative"
    passed := passed
    expected := some 0
    actual := some r0010
    message := if passed then "" else "Own Funds (" ++ toString r0010 ++ ") is negative" }

/-- Rule V006 from validation.py: CET1 must be non-negative. -/
def _v006_cet1_positive (m : FieldMap) : ValidationResult :=
  let r0030 := _get m ("r0030") 0
  let passed := decide (r0030 ≥ 0)
  { rule_id := "V006"
    description := "CET1 must be non-negative"
    passed := passed
    expected := some 0
    actual := some r0030
    message := if passed then "" else "CET1 (" ++ toString r0030 ++ ") is negative" }

/-- Model of `_ALL_RULES` from validation.py, in declaration order. -/
def _ALL_RULES : List (FieldMap → ValidationResult) :=
  [_v001_own_funds, _v002_tier1, _v003_cet1, _v004_instruments_breakdown,
   _v005_own_funds_positive, _v006_cet1_positive]

/-- Model of `validate` from validation.py: run all rules against the field map. -/
def validate (fields : List PopulatedField) : List ValidationResult :=
  _ALL_RULES.map (fun rule => rule (_field_map fields))

/-! ## retrieval.py

The retriever's I/O surface is modelled explicitly: the two persisted
cache artifacts (the `.npy` vector matrix and the ids `.json`) are each
either absent, present-but-failing-deserialization (`corrupt`), or
readable with a value; writes are modelled as succeeding.  The Gemini
client is a function from text to an optional vector, `none` standing
for a raised provider error.  Batching of embedding requests in groups
of 5 only changes iteration bookkeeping, not the sequential order of
the per-text `embed_content` calls, so the build is modelled as one
sequential traversal. -/

/-- Model of `RegulatoryChunk` from models.py. -/
structure RegulatoryChunk where
  chunk_id : String
  text : String
  source : String
  section_ref : String
  template_id : String
  keywords : List String
deriving DecidableEq

/-- A persisted cache artifact: missing file, file whose deserialization
raises, or a readable value. -/
inductive Artifact (α : Type) where
  | absent
  | corrupt
  | ok (v : α)
deriving DecidableEq

/-- The on-disk state of the two cache artifacts
(`embeddings_cache.npy` and `embeddings_ids.json`). -/
structure CacheFS where
  embedCache : Artifact (List (List ℚ))
  idsCache : Artifact (List String)

/-- The embedding provider: `embed_content` on one text, `none` models a
raised provider/network error. -/
structure EmbedClient where
  embed : String → Option (List ℚ)

/-- The mutable state of `SimpleRetriever` from retrieval.py. -/
structure SimpleRetriever where
  chunks : List RegulatoryChunk
  client : Option EmbedClient
  embeddings : Option (List (List ℚ))
  embed_ids : List String

/-- Model of `_load_cached_embeddings` from retrieval.py.  Mirrors the Python
statement order: both files must exist; `np.load` of the matrix happens
before the ids are read, so a deserialization failure of the ids file
leaves `self._embeddings` already assigned. -/
def _load_cached_embeddings (fs : CacheFS) (st : SimpleRetriever) :
    Bool × SimpleRetriever :=
  match fs.embedCache, fs.idsCache with
  | Artifact.absent, _ => (false, st)
  | _, Artifact.absent => (false, st)
  | Artifact.corrupt, _ => (false, st)
  | Artifact.ok mat, Artifact.corrupt => (false, { st with embeddings := some mat })
  | Artifact.ok mat, Artifact.ok ids =>
    if ids = st.chunks.map (fun c => c.chunk_id) then
      (true, { st with embeddings := some mat, embed_ids := ids })
    else
      (false, { st with embeddings := none, embed_ids := [] })

/-- Sequential `embed_content` calls over all texts; any raised provider
error aborts the whole build (`none`). -/
def embedAll (c : EmbedClient) : List String → Option (List (List ℚ))
  | [] => some []
  | t :: ts =>
    match c.embed t, embedAll c ts with
    | some v, some vs => some (v :: vs)
    | _, _ => none

/-- Model of `_build_embeddings` from retrieval.py: no client or any provider
error reports failure with no state change (partial vectors are local);
on success the matrix and ids are stored in memory and both artifacts
are persisted. -/
def _build_embeddings (fs : CacheFS) (st : SimpleRetriever) :
    Bool × SimpleRetriever × CacheFS :=
  match st.client with
  | none => (false, st, fs)
  | some c =>
    match embedAll c (st.chunks.map (fun ch => ch.text)) with
    | none => (false, st, fs)
    | some vectors =>
      (true,
       { st with embeddings := some vectors,
                 embed_ids := st.chunks.map (fun ch => ch.chunk_id) },
       { embedCache := Artifact.ok vectors,
         idsCache := Artifact.ok (st.chunks.map (fun ch => ch.chunk_id)) })

/-- Model of `ensure_embeddings` from retrieval.py: resident, else cached, else
freshly built. -/
def ensure_embeddings (fs : CacheFS) (st : SimpleRetriever) :
    Bool × SimpleRetriever × CacheFS :=
  match st.embeddings with
  | some _ => (true, st, fs)
  | none =>
    match _load_cached_embeddings fs st with
    | (true, st1) => (true, st1, fs)
    | (false, st1) => _build_embeddings fs st1

/-- Model of `np.linalg.norm`: square root of the sum of squares, float sqrt
modelled by `Rat.sqrt`. -/
def _vec_norm (v : List ℚ) : ℚ :=
  Rat.sqrt ((v.map (fun x => x * x)).sum)

/-- Model of `_cosine_similarity` from retrieval.py: normalize the query vector
and each matrix row by its norm plus the 1e-10 epsilon, then take dot
products. -/
def _cosine_similarity (a : List ℚ) (b : List (List ℚ)) : List ℚ :=
  let a_norm := a.map (fun x => x / (_vec_norm a + 1 / 10 ^ 10))
  b.map (fun row =>
    let r_norm := row.map (fun x => x / (_vec_norm row + 1 / 10 ^ 10))
    ((r_norm.zip a_norm).map (fun p => p.1 * p.2)).sum)

/-- A retrieved-passage record: the dict built by both retrieval paths. -/
structure Passage where
  chunk_id : String
  text : String
  source : String
  section_ref : String
  score : ℚ
deriving DecidableEq

/-- Out-of-range placeholder for list indexing (`self.chunks[idx]` is
always in range in the source; this default is never selected). -/
def defaultChunk : RegulatoryChunk :=
  { chunk_id := "", text := "", source := "", section_ref := "",
    template_id := "", keywords := [] }

/-- Model of `[w.lower() for w in query.split() if len(w) > 2]`: Python's
whitespace split discards empty pieces, which the length filter does
anyway. -/
def queryWords (query : String) : List String :=
  ((query.split (fun c => c.isWhitespace)).filter
    (fun w => decide (2 < w.length))).map (fun w => w.toLower)

/-- Model of `text.lower() + " " + " ".join(keywords).lower()`. -/
def combinedText (c : RegulatoryChunk) : String :=
  c.text.toLower ++ " " ++ (String.intercalate (" ") c.keywords).toLower

/-- Python's substring test `needle in haystack`. -/
def substrB (needle haystack : String) : Bool :=
  decide (needle.data <:+: haystack.data)

/-- The keyword score of one chunk: one point per query word occurring
in the combined text, plus three per query word that starts with "r0"
and occurs there (Python int arithmetic, hence ℕ). -/
def kwScore (qws : List String) (c : RegulatoryChunk) : ℕ :=
  (qws.filter (fun w => substrB w (combinedText c))).length +
    3 * (qws.filter (fun w => w.startsWith ("r0") && substrB w (combinedText c))).length

/-- The `scored` list of `(score, i)` pairs over `enumerate(self.chunks)`
(query words are computed once, before the loop). -/
def kwScored (chunks : List RegulatoryChunk) (query : String) : List (ℕ × ℕ) :=
  chunks.enum.map (fun ic => (kwScore (queryWords query) ic.2, ic.1))

/-- Model of `scored.sort(key=lambda x: x[0], reverse=True)`: Python's stable
descending sort.  On `kwScored`, whose second components are the
strictly increasing corpus positions, the stable descending-by-score
sort coincides with this total sort by descending score with ascending
position as tiebreak. -/
def kwRanked (chunks : List RegulatoryChunk) (query : String) : List (ℕ × ℕ) :=
  (kwScored chunks query).mergeSort
    (fun a b => decide (b.1 < a.1 ∨ (a.1 = b.1 ∧ a.2 ≤ b.2)))

/-- Build the result dict for one `(score, idx)` pair
(`chunk = self.chunks[idx]`; the Python int score becomes the dict's
numeric score value). -/
def mkPassage (chunks : List RegulatoryChunk) (si : ℕ × ℕ) : Passage :=
  { chunk_id := (chunks.getD si.2 defaultChunk).chunk_id,
    text := (chunks.getD si.2 defaultChunk).text,
    source := (chunks.getD si.2 defaultChunk).source,
    section_ref := (chunks.getD si.2 defaultChunk).section_ref,
    score := (si.1 : ℚ) }

/-- Model of `retrieve_keyword` from retrieval.py. -/
def retrieve_keyword (chunks : List RegulatoryChunk) (query : String)
    (top_k : ℕ) : List Passage :=
  ((kwRanked chunks query).take top_k).map (mkPassage chunks)

/-- Model of `np.argsort(scores)[::-1]` (argsort modelled as index-stable
ascending, then reversed). -/
def argsortDesc (scores : List ℚ) : List ℕ :=
  (((scores.enum.map (fun p => (p.2, p.1))).mergeSort
    (fun a b => decide (a.1 < b.1 ∨ (a.1 = b.1 ∧ a.2 ≤ b.2)))).map
      (fun p => p.2)).reverse

/-- Model of `retrieve_semantic` from retrieval.py: ensure embeddings, embed the
query (an absent client raises `AttributeError`, caught like any other
exception), cosine-score, take the top indices; every failure path
falls back to `retrieve_keyword`. -/
def retrieve_semantic (fs : CacheFS) (st : SimpleRetriever) (query : String)
    (top_k : ℕ) : List Passage × SimpleRetriever × CacheFS :=
  match ensure_embeddings fs st with
  | (false, st1, fs1) => (retrieve_keyword st1.chunks query top_k, st1, fs1)
  | (true, st1, fs1) =>
    match st1.client with
    | none => (retrieve_keyword st1.chunks query top_k, st1, fs1)
    | some c =>
      match c.embed query with
      | none => (retrieve_keyword st1.chunks query top_k, st1, fs1)
      | some q_vec =>
        ((((argsortDesc (_cosine_similarity q_vec (st1.embeddings.getD []))).take
            top_k).map (fun idx =>
          { chunk_id := (st1.chunks.getD idx defaultChunk).chunk_id,
            text := (st1.chunks.getD idx defaultChunk).text,
            source := (st1.chunks.getD idx defaultChunk).source,
            section_ref := (st1.chunks.getD idx defaultChunk).section_ref,
            score := (_cosine_similarity q_vec (st1.embeddings.getD [])).getD idx 0 })),
         st1, fs1)

/-- Model of `retrieve` from retrieval.py: explicit strategies first, then the
auto routing on whether a client is configured. -/
def retrieve (fs : CacheFS) (st : SimpleRetriever) (query : String)
    (top_k : ℕ) (method : String) : List Passage × SimpleRetriever × CacheFS :=
  if method = "keyword" then (retrieve_keyword st.chunks query top_k, st, fs)
  else if method = "semantic" then retrieve_semantic fs st query top_k
  else if st.client.isSome then retrieve_semantic fs st query top_k
  else (retrieve_keyword st.chunks query top_k, st, fs)

/-! ## Claims about validation -/

/-- C1: for every list of populated fields (including the empty list),
`validate` returns exactly 6 results, one per declared rule, in the
fixed declaration order V001..V006.  `validate` is a total Lean
function, so it never raises. -/
theorem c1_validate_shape (fields : List PopulatedField) :
    (validate fields).length = 6 ∧
    (validate fields).map (fun r => r.rule_id) =
      ["V001", "V002", "V003", "V004", "V005", "V006"] := by
  exact ⟨rfl, rfl⟩

/-- C2: each arithmetic rule V001-V004 resolves every referenced row value
through `_get` (the row id itself if present, else the row id with the
default-column suffix, else 0) and passes exactly when the absolute
difference between the derived field's value and the sum/difference of
its component values is under the fixed tolerance 0.5 (= 1/2); the rules
are total Lean functions, so a missing referenced field never raises. -/
theorem c2_arithmetic_rules_tolerance (fields : List PopulatedField) :
    (∀ key, _get (_field_map fields) key 0 =
      match _field_map fields key with
      | some v => v
      | none =>
        match _field_map fields (key ++ "_c0010") with
        | some v => v
        | none => 0) ∧
    ((_v001_own_funds (_field_map fields)).passed = true ↔
      |_get (_field_map fields) ("r0010") 0 -
        (_get (_field_map fields) ("r0020") 0 + _get (_field_map fields) ("r0500") 0)| <
        1 / 2) ∧
    ((_v002_tier1 (_field_map fields)).passed = true ↔
      |_get (_field_map fields) ("r0020") 0 -
        (_get (_field_map fields) ("r0030") 0 + _get (_field_map fields) ("r0300") 0)| <
        1 / 2) ∧
    ((_v003_cet1 (_field_map fields)).passed = true ↔
      |_get (_field_map fields) ("r0030") 0 -
        (_get (_field_map fields) ("r0040") 0 + _get (_field_map fields) ("r0100") 0 +
          _get (_field_map fields) ("r0110") 0 + _get (_field_map fields) ("r0130") 0 -
          _get (_field_map fields) ("r0200") 0 - _get (_field_map fields) ("r0210") 0 -
          _get (_field_map fields) ("r0220") 0)| < 1 / 2) ∧
    ((_v004_instruments_breakdown (_field_map fields)).passed = true ↔
      |_get (_field_map fields) ("r0040") 0 -
        (_get (_field_map fields) ("r0050") 0 + _get (_field_map fields) ("r0060") 0 +
          _get (_field_map fields) ("r0070") 0)| < 1 / 2) := by
  exact ⟨fun key => rfl, decide_eq_true_iff, decide_eq_true_iff,
    decide_eq_true_iff, decide_eq_true_iff⟩

/-- The §8 validation-correctness scenario: Tier 1 = 100, AT1 = 20,
CET1 = 80, populated in the template's default column. -/
def c7fields : List PopulatedField :=
  [{ field_id := "r0020_c0010", field_name := "Tier 1 capital", value := 100,
     reasoning := "", citations := [], confidence := Confidence.high },
   { field_id := "r0300_c0010", field_name := "Additional Tier 1 capital", value := 20,
     reasoning := "", citations := [], confidence := Confidence.high },
   { field_id := "r0030_c0010", field_name := "CET1 capital", value := 80,
     reasoning := "", citations := [], confidence := Confidence.high }]

/-- C7: on `{r0020: 100, r0300: 20, r0030: 80}` with no r0010/r0500 field,
V002 (100 == 80 + 20) passes, and V001 fails with actual = 0 and
expected = 100 (0 == 100 + 0 is off by far more than the tolerance). -/
theorem c7_v002_passes_v001_fails :
    ((validate c7fields).get? 1).map (fun r => r.passed) = some true ∧
    ((validate c7fields).get? 0).map (fun r => (r.passed, r.actual, r.expected)) =
      some (false, some 0, some 100) := by
  constructor
  · show some (_v002_tier1 (_field_map c7fields)).passed = some true
    rw [show (_v002_tier1 (_field_map c7fields)).passed
        = decide (|(100 : ℚ) - (80 + 20)| < 1 / 2) from rfl]
    norm_num
  · show some ((_v001_own_funds (_field_map c7fields)).passed,
        (_v001_own_funds (_field_map c7fields)).actual,
        (_v001_own_funds (_field_map c7fields)).expected) = some (false, some 0, some 100)
    rw [show (_v001_own_funds (_field_map c7fields)).passed
          = decide (|(0 : ℚ) - (100 + 0)| < 1 / 2) from rfl,
        show (_v001_own_funds (_field_map c7fields)).actual = some (0 : ℚ) from rfl,
        show (_v001_own_funds (_field_map c7fields)).expected = some ((100 : ℚ) + 0) from rfl]
    norm_num

/-- A `takeWhile` keeps a list whose members all satisfy the predicate. -/
theorem takeWhile_eq_self_of_forall {α : Type} (p : α → Bool) :
    ∀ (l : List α), (∀ a ∈ l, p a = true) → l.takeWhile p = l := by
  intro l h
  induction l with
  | nil => rfl
  | cons a t ih =>
    have ha := h a (List.mem_cons_self a t)
    simp [List.takeWhile, ha, ih (fun x hx => h x (List.mem_cons_of_mem a hx))]

/-- The row part of a field id never contains an underscore. -/
theorem rowOf_no_underscore (fid : String) : '_' ∉ (rowOf fid).data := by
  intro hmem
  have hmem' : '_' ∈ fid.data.takeWhile (fun c => c != '_') := hmem
  have h := @List.mem_takeWhile_imp _ (fun c => c != '_') _ _ hmem'
  simp at h

/-- A string without underscores is its own row part. -/
theorem rowOf_eq_self (k : String) (h : '_' ∉ k.data) : rowOf k = k := by
  show String.mk (k.data.takeWhile (fun c => c != '_')) = k
  have hl : k.data.takeWhile (fun c => c != '_') = k.data :=
    takeWhile_eq_self_of_forall _ k.data (fun a ha => by
      simp only [bne_iff_ne, ne_eq, decide_eq_true_eq]
      intro he
      exact h (he ▸ ha))
  rw [hl]

/-- One iteration of the `_field_map` loop, applied after the rest. -/
theorem field_map_append (l : List PopulatedField) (f : PopulatedField) (k : String) :
    _field_map (l ++ [f]) k =
      mapInsert (mapInsert (_field_map l) f.field_id f.value) (rowOf f.field_id)
        f.value k := by
  show (List.foldl
      (fun m g => mapInsert (mapInsert m g.field_id g.value) (rowOf g.field_id) g.value)
      mapEmpty (l ++ [f])) k = _
  rw [List.foldl_append]
  rfl

/-- Lookup of an underscore-free key in the field map: the last field
whose row part is that key wins. -/
theorem field_map_bare (k : String) (h : '_' ∉ k.data) (fields : List PopulatedField) :
    _field_map fields k =
      ((fields.filter (fun f => decide (rowOf f.field_id = k))).getLast?).map
        (fun f => f.value) := by
  induction fields using List.reverseRecOn with
  | nil => rfl
  | append_singleton l f ih =>
    rw [field_map_append, List.filter_append]
    by_cases hP : rowOf f.field_id = k
    · have hR : List.filter (fun g => decide (rowOf g.field_id = k)) [f] = [f] := by
        simp [hP]
      rw [hR, List.getLast?_concat]
      simp [mapInsert, hP]
    · have hk1 : k ≠ rowOf f.field_id := fun he => hP he.symm
      have hk2 : k ≠ f.field_id := by
        intro he
        exact hP (by rw [← he, rowOf_eq_self k h])
      have hR : List.filter (fun g => decide (rowOf g.field_id = k)) [f] = [] := by
        simp [hP]
      rw [hR, List.append_nil]
      have hL : mapInsert (mapInsert (_field_map l) f.field_id f.value)
          (rowOf f.field_id) f.value k = _field_map l k := by
        simp [mapInsert, if_neg hk1, if_neg hk2]
      rw [hL, ih]

/-- Lookup of a key containing an underscore in the field map: the last
field bearing exactly that field id wins. -/
theorem field_map_full (k : String) (h : '_' ∈ k.data) (fields : List PopulatedField) :
    _field_map fields k =
      ((fields.filter (fun f => decide (f.field_id = k))).getLast?).map
        (fun f => f.value) := by
  induction fields using List.reverseRecOn with
  | nil => rfl
  | append_singleton l f ih =>
    rw [field_map_append, List.filter_append]
    have hk1 : k ≠ rowOf f.field_id := by
      intro he
      exact rowOf_no_underscore f.field_id (he ▸ h)
    by_cases hP : f.field_id = k
    · have hR : List.filter (fun g => decide (g.field_id = k)) [f] = [f] := by
        simp [hP]
      rw [hR, List.getLast?_concat]
      simp [mapInsert, if_neg hk1, hP]
    · have hk2 : k ≠ f.field_id := fun he => hP he.symm
      have hR : List.filter (fun g => decide (g.field_id = k)) [f] = [] := by
        simp [hP]
      rw [hR, List.append_nil]
      have hL : mapInsert (mapInsert (_field_map l) f.field_id f.value)
          (rowOf f.field_id) f.value k = _field_map l k := by
        simp [mapInsert, if_neg hk1, if_neg hk2]
      rw [hL, ih]

/-- C8: the field map sends each bare row id (no underscore) to the
value of the last field in input order whose field_id text before the
first underscore equals that row id, and each full field id (containing
an underscore) to the value of the last field bearing that id; the map
is a pure function of the input list. -/
theorem c8_field_map_last_wins (fields : List PopulatedField) (k : String) :
    ('_' ∉ k.data →
      _field_map fields k =
        ((fields.filter (fun f => decide (rowOf f.field_id = k))).getLast?).map
          (fun f => f.value)) ∧
    ('_' ∈ k.data →
      _field_map fields k =
        ((fields.filter (fun f => decide (f.field_id = k))).getLast?).map
          (fun f => f.value)) :=
  ⟨fun h => field_map_bare k h fields, fun h => field_map_full k h fields⟩

/-- Two populated fields sharing the row id r0010, for the C8 witness. -/
def c8fields : List PopulatedField :=
  [{ field_id := "r0010_c0010", field_name := "Own funds", value := 5,
     reasoning := "", citations := [], confidence := Confidence.medium },
   { field_id := "r0010_c0020", field_name := "Own funds (other column)", value := 7,
     reasoning := "", citations := [], confidence := Confidence.medium }]

theorem c8_field_map_last_wins_witness :
    ('_' ∉ ("r0010").data) ∧
    _field_map c8fields ("r0010") =
      ((c8fields.filter (fun f => decide (rowOf f.field_id = ("r0010")))).getLast?).map
        (fun f => f.value) :=
  ⟨by decide, (c8_field_map_last_wins c8fields ("r0010")).1 (by decide)⟩

/-! ## Claims about retrieval -/

/-- A cache load reports success exactly when both artifacts are
readable and the persisted ids equal the corpus ids in order. -/
theorem load_cached_fst_iff (fs : CacheFS) (st : SimpleRetriever) :
    (_load_cached_embeddings fs st).1 = true ↔
      ∃ mat ids, fs.embedCache = Artifact.ok mat ∧ fs.idsCache = Artifact.ok ids ∧
        ids = st.chunks.map (fun c => c.chunk_id) := by
  rcases fs with ⟨ec, ic⟩
  cases ec <;> cases ic <;> simp only [_load_cached_embeddings]
  all_goals try simp
  all_goals try (split <;> simp_all)

/-- C3: `load()` returns true iff both persisted artifacts are present
and readable and the persisted id sequence equals the current corpus's
chunk-id sequence elementwise in order; appending a chunk to the corpus
makes a previously valid cache load as invalid. -/
theorem c3_cache_validity (fs : CacheFS) (st : SimpleRetriever) :
    ((_load_cached_embeddings fs st).1 = true ↔
      ∃ mat ids, fs.embedCache = Artifact.ok mat ∧ fs.idsCache = Artifact.ok ids ∧
        ids = st.chunks.map (fun c => c.chunk_id)) ∧
    (∀ c, (_load_cached_embeddings fs st).1 = true →
      (_load_cached_embeddings fs { st with chunks := st.chunks ++ [c] }).1 = false) := by
  refine ⟨load_cached_fst_iff fs st, fun c h => ?_⟩
  rcases (load_cached_fst_iff fs st).mp h with ⟨mat, ids, hec, hic, hids⟩
  cases hb : (_load_cached_embeddings fs { st with chunks := st.chunks ++ [c] }).1
  · rfl
  · exfalso
    rcases (load_cached_fst_iff fs _).mp hb with ⟨mat2, ids2, hec2, hic2, hids2⟩
    injection hic.symm.trans hic2 with heq
    have hids2' : ids2 = st.chunks.map (fun ch => ch.chunk_id) ++ [c.chunk_id] := by
      simpa using hids2
    have hlen := congrArg List.length (hids.symm.trans (heq.symm ▸ hids2'))
    simp at hlen

/-- Corpus chunk used in the C3 witness scenario. -/
def c3chunk : RegulatoryChunk :=
  { chunk_id := "ch1", text := "own funds", source := "CRR", section_ref := "Art. 72",
    template_id := "C01.00", keywords := [] }

/-- Retriever state for the C3 witness: one chunk, no client. -/
def c3st : SimpleRetriever :=
  { chunks := [c3chunk], client := none, embeddings := none, embed_ids := [] }

/-- Persisted cache for the C3 witness, valid for `c3st`. -/
def c3fs : CacheFS :=
  { embedCache := Artifact.ok [[1]], idsCache := Artifact.ok ["ch1"] }

theorem c3_cache_validity_witness :
    (_load_cached_embeddings c3fs c3st).1 = true ∧
    (_load_cached_embeddings c3fs
      { c3st with chunks := c3st.chunks ++ [defaultChunk] }).1 = false :=
  ⟨rfl, (c3_cache_validity c3fs c3st).2 defaultChunk rfl⟩

/-- The cache load keeps the corpus and the client untouched. -/
theorem load_preserves (fs : CacheFS) (st : SimpleRetriever) :
    (_load_cached_embeddings fs st).2.chunks = st.chunks ∧
    (_load_cached_embeddings fs st).2.client = st.client := by
  rcases fs with ⟨ec, ic⟩
  cases ec <;> cases ic <;>
    first
    | exact ⟨rfl, rfl⟩
    | (simp only [_load_cached_embeddings]; split <;> exact ⟨rfl, rfl⟩)

/-- The cache build keeps the corpus and the client untouched. -/
theorem build_preserves (fs : CacheFS) (st : SimpleRetriever) :
    (_build_embeddings fs st).2.1.chunks = st.chunks ∧
    (_build_embeddings fs st).2.1.client = st.client := by
  rcases hc : st.client with _ | c
  · simp [_build_embeddings, hc]
  · rcases he : embedAll c (st.chunks.map (fun ch => ch.text)) with _ | vs <;>
      simp [_build_embeddings, hc, he]

/-- Running `ensure_embeddings` keeps the corpus and the client untouched. -/
theorem ensure_preserves (fs : CacheFS) (st : SimpleRetriever) :
    (ensure_embeddings fs st).2.1.chunks = st.chunks ∧
    (ensure_embeddings fs st).2.1.client = st.client := by
  rcases hm : st.embeddings with _ | m
  · rcases hl : _load_cached_embeddings fs st with ⟨ok, st1⟩
    have hpc := load_preserves fs st
    rw [hl] at hpc
    cases ok
    · have hb := build_preserves fs st1
      simp only [ensure_embeddings, hm, hl]
      exact ⟨hpc.1 ▸ hb.1, hpc.2 ▸ hb.2⟩
    · simp only [ensure_embeddings, hm, hl]
      exact ⟨hpc.1, hpc.2⟩
  · simp [ensure_embeddings, hm]

/-- C5: semantic retrieval never surfaces a provider- or cache-related
error: when ensuring embeddings fails, when no client is configured
(embedding the query raises `AttributeError`), or when embedding the
query fails, `retrieve_semantic` returns exactly the keyword result for
the same query and top_k. -/
theorem c5_semantic_fallback (fs : CacheFS) (st : SimpleRetriever) (query : String)
    (top_k : ℕ) :
    ((ensure_embeddings fs st).1 = false →
      (retrieve_semantic fs st query top_k).1 = retrieve_keyword st.chunks query top_k) ∧
    (st.client = none →
      (retrieve_semantic fs st query top_k).1 = retrieve_keyword st.chunks query top_k) ∧
    (∀ c, st.client = some c → c.embed query = none →
      (retrieve_semantic fs st query top_k).1 = retrieve_keyword st.chunks query top_k) := by
  rcases hE : ensure_embeddings fs st with ⟨ok, st1, fs1⟩
  have hpres := ensure_preserves fs st
  rw [hE] at hpres
  have h1 : st1.chunks = st.chunks := hpres.1
  have h2 : st1.client = st.client := hpres.2
  refine ⟨fun h => ?_, fun h => ?_, fun c hc hembed => ?_⟩
  · have hok : ok = false := h
    subst hok
    simp [retrieve_semantic, hE, h1]
  · cases ok
    · simp [retrieve_semantic, hE, h1]
    · simp [retrieve_semantic, hE, h2, h, h1]
  · cases ok
    · simp [retrieve_semantic, hE, h1]
    · simp [retrieve_semantic, hE, h2, hc, hembed, h1]

/-- Retriever state for the C5 witness: no client, nothing resident. -/
def c5st : SimpleRetriever :=
  { chunks := [], client := none, embeddings := none, embed_ids := [] }

/-- Empty persisted cache for the C5 witness. -/
def c5fs : CacheFS :=
  { embedCache := Artifact.absent, idsCache := Artifact.absent }

theorem c5_semantic_fallback_witness :
    (ensure_embeddings c5fs c5st).1 = false ∧
    (retrieve_semantic c5fs c5st ("own funds") 5).1 =
      retrieve_keyword c5st.chunks ("own funds") 5 :=
  ⟨rfl, (c5_semantic_fallback c5fs c5st ("own funds") 5).1 rfl⟩

/-- The descending-score / ascending-position comparator is transitive. -/
theorem kwLe_trans (a b c : ℕ × ℕ)
    (hab : decide (b.1 < a.1 ∨ (a.1 = b.1 ∧ a.2 ≤ b.2)) = true)
    (hbc : decide (c.1 < b.1 ∨ (b.1 = c.1 ∧ b.2 ≤ c.2)) = true) :
    decide (c.1 < a.1 ∨ (a.1 = c.1 ∧ a.2 ≤ c.2)) = true := by
  simp only [decide_eq_true_eq] at hab hbc ⊢
  omega

/-- The descending-score / ascending-position comparator is total. -/
theorem kwLe_total (a b : ℕ × ℕ) :
    (decide (b.1 < a.1 ∨ (a.1 = b.1 ∧ a.2 ≤ b.2)) ||
      decide (a.1 < b.1 ∨ (b.1 = a.1 ∧ b.2 ≤ a.2))) = true := by
  simp only [Bool.or_eq_true, decide_eq_true_eq]
  omega

/-- The second components of the scored list are the corpus positions. -/
theorem kwScored_map_snd (chunks : List RegulatoryChunk) (query : String) :
    (kwScored chunks query).map (fun si => si.2) = List.range chunks.length := by
  show (chunks.enum.map
      (fun ic => (kwScore (queryWords query) ic.2, ic.1))).map (fun si => si.2) =
    List.range chunks.length
  rw [List.map_map]
  have he : ((fun (si : ℕ × ℕ) => si.2) ∘
      fun (ic : ℕ × RegulatoryChunk) => (kwScore (queryWords query) ic.2, ic.1)) =
      Prod.fst := rfl
  rw [he, List.enum_map_fst]

/-- C4: keyword retrieval returns at most top_k passages, is exactly the
top-k prefix of the ranked scored list, which is a permutation of the
per-chunk scored list, ordered by strictly descending score with ties
broken by ascending corpus position; output scores are non-increasing,
and every scored entry carries the count-plus-r0-bonus score of its
chunk.  All functions involved are total: keyword retrieval never
fails. -/
theorem c4_keyword_retrieval (chunks : List RegulatoryChunk) (query : String)
    (top_k : ℕ) :
    (retrieve_keyword chunks query top_k).length ≤ top_k ∧
    retrieve_keyword chunks query top_k =
      ((kwRanked chunks query).take top_k).map (mkPassage chunks) ∧
    (kwRanked chunks query).Perm (kwScored chunks query) ∧
    List.Pairwise (fun a b : ℕ × ℕ => b.1 < a.1 ∨ (a.1 = b.1 ∧ a.2 < b.2))
      (kwRanked chunks query) ∧
    List.Pairwise (fun p q : Passage => q.score ≤ p.score)
      (retrieve_keyword chunks query top_k) ∧
    (kwScored chunks query).Forall
      (fun si => si.2 < chunks.length ∧
        si.1 = kwScore (queryWords query) (chunks.getD si.2 defaultChunk)) := by
  have hperm : (kwRanked chunks query).Perm (kwScored chunks query) :=
    List.mergeSort_perm (kwScored chunks query)
      (fun a b => decide (b.1 < a.1 ∨ (a.1 = b.1 ∧ a.2 ≤ b.2)))
  have hsorted0 : List.Pairwise
      (fun a b : ℕ × ℕ => (decide (b.1 < a.1 ∨ (a.1 = b.1 ∧ a.2 ≤ b.2))) = true)
      (kwRanked chunks query) :=
    List.sorted_mergeSort kwLe_trans kwLe_total (kwScored chunks query)
  have hsorted1 : List.Pairwise
      (fun a b : ℕ × ℕ => b.1 < a.1 ∨ (a.1 = b.1 ∧ a.2 ≤ b.2))
      (kwRanked chunks query) :=
    hsorted0.imp (fun h => by simpa using h)
  have hnodup : ((kwRanked chunks query).map (fun si => si.2)).Nodup := by
    have h1 : ((kwScored chunks query).map (fun si => si.2)).Perm
        ((kwRanked chunks query).map (fun si => si.2)) :=
      (hperm.map (fun si => si.2)).symm
    exact h1.nodup (by rw [kwScored_map_snd]; exact List.nodup_range _)
  have hpne : List.Pairwise (fun a b : ℕ × ℕ => a.2 ≠ b.2) (kwRanked chunks query) :=
    List.pairwise_map.mp hnodup
  have hstrict : List.Pairwise
      (fun a b : ℕ × ℕ => b.1 < a.1 ∨ (a.1 = b.1 ∧ a.2 < b.2))
      (kwRanked chunks query) := by
    refine (hsorted1.and hpne).imp ?_
    rintro a b ⟨h1 | ⟨h1a, h1b⟩, h2⟩
    · exact Or.inl h1
    · exact Or.inr ⟨h1a, lt_of_le_of_ne h1b h2⟩
  refine ⟨?_, rfl, hperm, hstrict, ?_, ?_⟩
  · show (((kwRanked chunks query).take top_k).map (mkPassage chunks)).length ≤ top_k
    rw [List.length_map]
    exact List.length_take_le top_k (kwRanked chunks query)
  · have htake := List.Pairwise.sublist
      (List.take_sublist top_k (kwRanked chunks query)) hstrict
    refine List.pairwise_map.mpr (htake.imp ?_)
    intro a b h
    show ((b.1 : ℚ)) ≤ ((a.1 : ℚ))
    have hn : b.1 ≤ a.1 := by omega
    exact_mod_cast hn
  · rw [List.forall_iff_forall_mem]
    intro si hsi
    rcases List.mem_map.mp hsi with ⟨ic, hic, rfl⟩
    obtain ⟨i, ch⟩ := ic
    have hb := List.mem_enum hic
    refine ⟨hb.1, ?_⟩
    have hg : chunks.getD i defaultChunk = chunks[i] := by
      simp [List.getD_eq_getElem?_getD, List.getElem?_eq_getElem hb.1]
    show kwScore (queryWords query) ch = kwScore (queryWords query) (chunks.getD i defaultChunk)
    rw [hg, ← hb.2]

/-- Corpus chunk used in the C6 failing scenario. -/
def c6chunk : RegulatoryChunk :=
  { chunk_id := "ch1", text := "tier 1", source := "CRR", section_ref := "Art. 25",
    template_id := "C01.00", keywords := [] }

/-- Retriever state for the C6 failing scenario: fresh instance. -/
def c6st : SimpleRetriever :=
  { chunks := [c6chunk], client := none, embeddings := none, embed_ids := [] }

/-- Cache files for the C6 failing scenario: the vector matrix is
readable, the ids artifact fails to deserialize. -/
def c6fs : CacheFS :=
  { embedCache := Artifact.ok [[1]], idsCache := Artifact.corrupt }

/-- C6 fails on the code: when the matrix deserializes but the ids
artifact does not, `load()` does return false without raising, but the
in-memory state is not as if no cache existed: the loaded vectors stay
resident paired with the empty id sequence (which disagrees with the
one-row matrix), and a subsequent `ensure_embeddings` reports success
on that mismatched state. -/
theorem c6_partial_load_observable :
    (_load_cached_embeddings c6fs c6st).1 = false ∧
    (_load_cached_embeddings c6fs c6st).2.embeddings = some [[1]] ∧
    (_load_cached_embeddings c6fs c6st).2.embed_ids = [] ∧
    (ensure_embeddings c6fs (_load_cached_embeddings c6fs c6st).2).1 = true :=
  ⟨rfl, rfl, rfl, rfl⟩

/-- C9: with no client configured, the auto strategy returns a result
identical to the keyword strategy (same passages, order and scores; the
state and cache are untouched by both). -/
theorem c9_auto_without_client (fs : CacheFS) (st : SimpleRetriever) (query : String)
    (top_k : ℕ) (h : st.client = none) :
    retrieve fs st query top_k ("auto") = retrieve fs st query top_k ("keyword") := by
  simp [retrieve, h]

/-- Retriever state for the C9 witness: no client configured. -/
def c9st : SimpleRetriever :=
  { chunks := [c3chunk], client := none, embeddings := none, embed_ids := [] }

/-- Persisted cache for the C9 witness. -/
def c9fs : CacheFS :=
  { embedCache := Artifact.absent, idsCache := Artifact.absent }

theorem c9_auto_without_client_witness :
    c9st.client = none ∧
    retrieve c9fs c9st ("own funds") 5 ("auto") =
      retrieve c9fs c9st ("own funds") 5 ("keyword") :=
  ⟨rfl, c9_auto_without_client c9fs c9st ("own funds") 5 rfl⟩

/-- C10: for the empty populated-field list, every one of the six
validation results has `passed = true` (all lookups default to 0, the
four arithmetic rules hold with difference 0, and the two sign rules
hold at the 0 boundary). -/
theorem c10_empty_fields_all_pass :
    ((validate ([] : List PopulatedField)).all (fun r => r.passed)) = true ∧
    (validate ([] : List PopulatedField)).length = 6 := by
  constructor
  · norm_num [validate, _ALL_RULES, _v001_own_funds, _v002_tier1, _v003_cet1,
      _v004_instruments_breakdown, _v005_own_funds_positive, _v006_cet1_positive,
      _field_map, mapEmpty, _get, List.all]
  · rfl
